import Mathlib

/-!
Verification of the allocator application lifecycle (allocator-rkh-backend).

The development shallowly embeds:
* the `DatacapAllocator` application aggregate (state machine, instruction
  ledger, staged events).  The aggregate implementation itself is not under
  `src/` (only its unit tests are), so the operations are modelled from the
  specification, with concrete constants (error tuple, sentinel actor id,
  default amounts, thresholds) pinned by the unit tests in
  `src/packages/application/src/domain/application/application.test.ts`;
* the reconciliation poller (`fetchApprovals`,
  `subscribeMetaAllocatorApprovals` and its two approval handlers), whose
  source is under `src/`;
* the `SubmitGovernanceReviewResultCommandHandler` from `src/unnamed/part_000`
  together with the repository optimistic-concurrency save contract.

All definitions are executable; machine numbers are modelled as `Int`/`Nat`.
-/

namespace AllocatorRkh

/-- The application status enumeration.  The spec lists the seven lifecycle
phases; the unit tests additionally use an `APPROVED` member of the
enumeration, which we include. -/
inductive ApplicationStatus where
  | KYC_PHASE
  | GOVERNANCE_REVIEW_PHASE
  | RKH_APPROVAL_PHASE
  | META_APPROVAL_PHASE
  | APPROVED
  | REJECTED
  | IN_REFRESH
  | DC_ALLOCATED
deriving DecidableEq, Repr

/-- Instruction status: one funding tranche's lifecycle state. -/
inductive ApplicationInstructionStatus where
  | PENDING
  | GRANTED
  | DENIED
deriving DecidableEq, Repr

/-- One funding-tranche lifecycle record of the instruction ledger.
Timestamps are epoch milliseconds (`none` = not set). -/
structure ApplicationInstruction where
  method : String
  datacap_amount : Nat
  startTimestamp : Option Int
  endTimestamp : Option Int
  allocatedTimestamp : Option Int
  status : ApplicationInstructionStatus
deriving DecidableEq, Repr

/-- Pull-request reference recorded on the aggregate. -/
structure ApplicationPullRequest where
  prNumber : Nat
  prUrl : String
  commentId : Nat
deriving DecidableEq, Repr

/-- The uniform client-facing error raised by aggregate operations.
The phase-violation instance is pinned by the unit tests:
`ApplicationError(StatusCodes.BAD_REQUEST, '5308', 'Invalid operation for the current phase')`. -/
structure ApplicationError where
  statusCode : Nat
  code : String
  message : String
deriving DecidableEq, Repr

/-- The fixed phase-violation error (HTTP 400-class, code "5308"). -/
def phaseViolation : ApplicationError :=
  { statusCode := 400, code := "5308", message := "Invalid operation for the current phase" }

/-- Names of the domain events staged by aggregate operations. -/
inductive EventName where
  | KYCApproved
  | GovernanceReviewStarted
  | KYCRejected
  | KYCRevoked
  | GovernanceReviewApproved
  | GovernanceReviewRejected
  | RKHApprovalsUpdated
  | RKHApprovalCompleted
  | MetaAllocatorApprovalCompleted
  | DatacapRefreshRequested
  | ApplicationEdited
  | AllocatorMultisigUpdated
  | ApplicationPullRequestUpdated
deriving DecidableEq, Repr

/-- Modelled from the spec: the `DatacapAllocator` aggregate root
(`application.ts`, not under `src/`).  Fields are the ones the spec's data
model (§3) and the unit tests exercise.  The six status-checkpoint
timestamps of the status timestamp map are the `st*` fields. -/
structure DatacapAllocator where
  guid : String
  applicationNumber : Nat
  applicantName : String
  applicantAddress : String
  applicantOrgName : String
  applicantOrgAddresses : String
  applicationStatus : ApplicationStatus
  applicationInstructions : List ApplicationInstruction
  stApplicationSubmitted : Option Int
  stKYCSubmitted : Option Int
  stKYCFailed : Option Int
  stApproved : Option Int
  stDeclined : Option Int
  stDCAllocated : Option Int
  pathway : String
  ma_address : String
  isMetaAllocator : Bool
  isMDMA : Bool
  allocatorActorId : String
  allocationTooling : List String
  allocationStandardizedAllocations : List String
  allocationAudit : String
  allocationDistributionRequired : String
  allocationTrancheSchedule : String
  allocationRequiredReplicas : String
  allocationRequiredStorageProviders : String
  allocationMaxDcClient : String
  allocationBookkeepingRepo : String
  allocationDatacapAllocationLimits : String
  applicantGithubHandle : String
  onChainAddressForDataCapAllocation : String
  allocatorMultisigAddress : Option String
  allocatorMultisigThreshold : Option Nat
  allocatorMultisigSigners : List String
  rkhApprovals : List String
  rkhApprovalThreshold : Nat
  applicationPullRequest : Option ApplicationPullRequest
  metaAllocatorBlockNumber : Option Int
  metaAllocatorTxHash : Option String
deriving DecidableEq, Repr

/-- Well-known RKH target address (unit-test fixture value). -/
def rkh_address : String := "f080"

/-- Well-known MDMA meta-allocator contract address
(`GET /api/v1/ma` fixture, `src/unnamed/part_001`). -/
def mdma_address : String := "0xB6F5d279AEad97dFA45209F3E53969c2EF43C21d"

/-- Sentinel allocator actor id written on governance-review rejection
(pinned by the unit test `should zero out allocatorActorId`). -/
def rejectedActorId : String := "f00000000"

/-- Creation parameters (the test fixture `fixtureApplicationParams`). -/
structure CreateParams where
  applicationId : String
  applicationNumber : Nat
  applicantName : String
  applicantAddress : String
  applicantOrgName : String
  applicantOrgAddresses : String
  allocationTrancheSchedule : String
  allocationAudit : String
  allocationDistributionRequired : String
  allocationRequiredStorageProviders : String
  bookkeepingRepo : String
  allocationRequiredReplicas : String
  datacapAllocationLimits : String
  applicantGithubHandle : String
  onChainAddressForDataCapAllocation : String
deriving DecidableEq, Repr

/-- Modelled from the spec: the factory seeds status `KYC_PHASE`, one PENDING
instruction with the nominal default amount (5, pinned by the unit tests) and
all status-checkpoint timestamps null. -/
def DatacapAllocator.create (now : Int) (p : CreateParams) : DatacapAllocator :=
  { guid := p.applicationId
    applicationNumber := p.applicationNumber
    applicantName := p.applicantName
    applicantAddress := p.applicantAddress
    applicantOrgName := p.applicantOrgName
    applicantOrgAddresses := p.applicantOrgAddresses
    applicationStatus := .KYC_PHASE
    applicationInstructions :=
      [{ method := ""
         datacap_amount := 5
         startTimestamp := some now
         endTimestamp := none
         allocatedTimestamp := none
         status := .PENDING }]
    stApplicationSubmitted := none
    stKYCSubmitted := none
    stKYCFailed := none
    stApproved := none
    stDeclined := none
    stDCAllocated := none
    pathway := ""
    ma_address := ""
    isMetaAllocator := false
    isMDMA := false
    allocatorActorId := ""
    allocationTooling := []
    allocationStandardizedAllocations := []
    allocationAudit := p.allocationAudit
    allocationDistributionRequired := p.allocationDistributionRequired
    allocationTrancheSchedule := p.allocationTrancheSchedule
    allocationRequiredReplicas := p.allocationRequiredReplicas
    allocationRequiredStorageProviders := p.allocationRequiredStorageProviders
    allocationMaxDcClient := ""
    allocationBookkeepingRepo := p.bookkeepingRepo
    allocationDatacapAllocationLimits := p.datacapAllocationLimits
    applicantGithubHandle := p.applicantGithubHandle
    onChainAddressForDataCapAllocation := p.onChainAddressForDataCapAllocation
    allocatorMultisigAddress := none
    allocatorMultisigThreshold := none
    allocatorMultisigSigners := []
    rkhApprovals := []
    rkhApprovalThreshold := 2
    applicationPullRequest := none
    metaAllocatorBlockNumber := none
    metaAllocatorTxHash := none }

/-- Update the last (active) element of a list, if any. -/
def updateLast (f : α → α) : List α → List α
  | [] => []
  | [a] => [f a]
  | a :: b :: rest => a :: updateLast f (b :: rest)

theorem updateLast_nil (f : α → α) : updateLast f [] = [] := rfl

theorem updateLast_concat (f : α → α) (l : List α) (a : α) :
    updateLast f (l ++ [a]) = l ++ [f a] := by
  induction l with
  | nil => rfl
  | cons x xs ih =>
    cases xs with
    | nil => rfl
    | cons y ys => simpa [updateLast] using ih

theorem getLast?_updateLast (f : α → α) (l : List α) :
    (updateLast f l).getLast? = l.getLast?.map f := by
  induction l using List.reverseRecOn with
  | nil => rfl
  | append_singleton xs a _ =>
    simp [updateLast_concat, List.getLast?_concat]

/-- Result of an aggregate operation: either the phase-violation (or runtime)
error with no state change and no staged event, or the new state together
with the staged events. -/
abbrev OpResult := Except ApplicationError (DatacapAllocator × List EventName)

namespace DatacapAllocator

/-- Modelled from the spec: `approveKYC` (aggregate source not under `src/`).
Precondition KYC_PHASE; sets the KYC-Submitted timestamp, transitions to
GOVERNANCE_REVIEW_PHASE and stages two events. -/
def approveKYC (now : Int) (s : DatacapAllocator) : OpResult :=
  if s.applicationStatus ∈ [ApplicationStatus.KYC_PHASE] then
    .ok ({ s with
            stKYCSubmitted := some now
            applicationStatus := .GOVERNANCE_REVIEW_PHASE },
         [.KYCApproved, .GovernanceReviewStarted])
  else .error phaseViolation

/-- Modelled from the spec: `rejectKYC` (aggregate source not under `src/`).
Precondition KYC_PHASE; sets the KYC-Failed timestamp, status unchanged. -/
def rejectKYC (now : Int) (s : DatacapAllocator) : OpResult :=
  if s.applicationStatus ∈ [ApplicationStatus.KYC_PHASE] then
    .ok ({ s with stKYCFailed := some now }, [.KYCRejected])
  else .error phaseViolation

/-- Modelled from the spec: `revokeKYC` (aggregate source not under `src/`).
Precondition GOVERNANCE_REVIEW_PHASE; clears the KYC-Submitted timestamp,
status unchanged. -/
def revokeKYC (s : DatacapAllocator) : OpResult :=
  if s.applicationStatus ∈ [ApplicationStatus.GOVERNANCE_REVIEW_PHASE] then
    .ok ({ s with stKYCSubmitted := none }, [.KYCRevoked])
  else .error phaseViolation

/-- Governance-review approval payload (fields used by the aggregate). -/
structure GovernanceReviewApprovedData where
  finalDataCap : Nat
  isMDMAAllocator : Option Bool
  allocatorType : String
deriving DecidableEq, Repr

/-- Governance-review rejection payload. -/
structure GovernanceReviewRejectedData where
  reason : String
deriving DecidableEq, Repr

/-- Allocation Path Resolver output: pathway name, target address and
meta-allocator flag (spec §4.3). -/
structure AllocationPath where
  pathway : String
  address : String
  isMetaAllocator : Bool
deriving DecidableEq, Repr

/-- Modelled from the spec: `approveGovernanceReview` (aggregate source not
under `src/`).  Precondition GOVERNANCE_REVIEW_PHASE; records the resolved
pathway, updates the active instruction's amount and method, and either
allocates directly (MDMA flag) or moves to the pathway's approval phase.
Tooling marker and phase targets are pinned by the unit tests. -/
def approveGovernanceReview (now : Int) (data : GovernanceReviewApprovedData)
    (path : AllocationPath) (s : DatacapAllocator) : OpResult :=
  if s.applicationStatus ∈ [ApplicationStatus.GOVERNANCE_REVIEW_PHASE] then
    let direct := data.isMDMAAllocator = some true
    let s1 := { s with
      pathway := path.pathway
      ma_address := path.address
      isMetaAllocator := path.isMetaAllocator
      isMDMA := direct
      stApproved := some now
      allocationTooling := if path.isMetaAllocator then ["smart_contract_allocator"] else []
      applicationInstructions :=
        updateLast (fun i => { i with
          method := path.pathway
          datacap_amount := data.finalDataCap })
          s.applicationInstructions }
    if direct then
      .ok ({ s1 with
              applicationInstructions :=
                updateLast (fun i => { i with
                  status := .GRANTED
                  allocatedTimestamp := some now }) s1.applicationInstructions
              stDCAllocated := some now
              applicationStatus := .DC_ALLOCATED },
           [.GovernanceReviewApproved])
    else
      .ok ({ s1 with
              applicationStatus :=
                if path.isMetaAllocator then .META_APPROVAL_PHASE
                else .RKH_APPROVAL_PHASE },
           [.GovernanceReviewApproved])
  else .error phaseViolation

/-- Modelled from the spec: `rejectGovernanceReview` (aggregate source not
under `src/`).  Precondition GOVERNANCE_REVIEW_PHASE; marks the active
instruction DENIED, writes the sentinel allocator actor id, sets the Declined
timestamp and moves to REJECTED. -/
def rejectGovernanceReview (now : Int) (_data : GovernanceReviewRejectedData)
    (s : DatacapAllocator) : OpResult :=
  if s.applicationStatus ∈ [ApplicationStatus.GOVERNANCE_REVIEW_PHASE] then
    .ok ({ s with
            applicationInstructions :=
              updateLast (fun i => { i with status := .DENIED }) s.applicationInstructions
            allocatorActorId := rejectedActorId
            stDeclined := some now
            applicationStatus := .REJECTED },
         [.GovernanceReviewRejected])
  else .error phaseViolation

/-- The pure state mutation performed by a completed RKH approval: clears the
allocation tooling, sets pathway "RKH" and the RKH target address, marks the
active instruction GRANTED with the current timestamp, sets the DC-Allocated
timestamp and moves to DC_ALLOCATED. -/
def completeRKHApprovalEffect (now : Int) (s : DatacapAllocator) : DatacapAllocator :=
  { s with
    allocationTooling := []
    pathway := "RKH"
    ma_address := rkh_address
    applicationInstructions :=
      updateLast (fun i => { i with
        status := .GRANTED
        allocatedTimestamp := some now }) s.applicationInstructions
    stDCAllocated := some now
    applicationStatus := .DC_ALLOCATED }

/-- Modelled from the spec: `completeRKHApproval` (aggregate source not under
`src/`).  Precondition RKH_APPROVAL_PHASE; applies the completion mutation and
stages `RKHApprovalCompleted`. -/
def completeRKHApproval (now : Int) (s : DatacapAllocator) : OpResult :=
  if s.applicationStatus ∈ [ApplicationStatus.RKH_APPROVAL_PHASE] then
    .ok (completeRKHApprovalEffect now s, [.RKHApprovalCompleted])
  else .error phaseViolation

/-- Modelled from the spec: `updateRKHApprovals` (aggregate source not under
`src/`).  Precondition RKH_APPROVAL_PHASE; a full no-op (no event) when the
new signer list's length equals the current one; otherwise replaces the
signer list and stages a single `RKHApprovalsUpdated` event, whose
application also performs the RKH-approval completion mutation when the new
count reaches the threshold.  The unit tests pin that exactly one event is
staged even when the threshold is met (`applyChange` called once, event name
`RKHApprovalsUpdated`), so the delegated completion contributes its state
mutation but no separately staged event. -/
def updateRKHApprovals (now : Int) (_blockNumber : Nat) (approvals : List String)
    (s : DatacapAllocator) : OpResult :=
  if s.applicationStatus ∈ [ApplicationStatus.RKH_APPROVAL_PHASE] then
    if approvals.length = s.rkhApprovals.length then
      .ok (s, [])
    else
      let s1 := { s with rkhApprovals := approvals }
      if s1.rkhApprovalThreshold ≤ approvals.length then
        .ok (completeRKHApprovalEffect now s1, [.RKHApprovalsUpdated])
      else
        .ok (s1, [.RKHApprovalsUpdated])
  else .error phaseViolation

/-- Modelled from the spec: `completeMetaAllocatorApproval` (aggregate source
not under `src/`).  Precondition META_APPROVAL_PHASE; records block number and
transaction hash, marks the active instruction GRANTED, sets the DC-Allocated
timestamp and moves to DC_ALLOCATED. -/
def completeMetaAllocatorApproval (now : Int) (blockNumber : Int) (txHash : String)
    (s : DatacapAllocator) : OpResult :=
  if s.applicationStatus ∈ [ApplicationStatus.META_APPROVAL_PHASE] then
    .ok ({ s with
            metaAllocatorBlockNumber := some blockNumber
            metaAllocatorTxHash := some txHash
            applicationInstructions :=
              updateLast (fun i => { i with
                status := .GRANTED
                allocatedTimestamp := some now }) s.applicationInstructions
            stDCAllocated := some now
            applicationStatus := .DC_ALLOCATED },
         [.MetaAllocatorApprovalCompleted])
  else .error phaseViolation

/-- Modelled from the spec: `requestDatacapRefresh` (aggregate source not
under `src/`).  Precondition DC_ALLOCATED; appends one new PENDING
instruction with double the active instruction's amount and the same method,
and ends in GOVERNANCE_REVIEW_PHASE with a single staged event.  An empty
ledger has no active instruction and is modelled as a runtime error (the
source would fault dereferencing the missing last element). -/
def requestDatacapRefresh (now : Int) (s : DatacapAllocator) : OpResult :=
  if s.applicationStatus ∈ [ApplicationStatus.DC_ALLOCATED] then
    match s.applicationInstructions.getLast? with
    | none =>
      .error { statusCode := 500, code := "runtime", message := "no active instruction" }
    | some last =>
      .ok ({ s with
              applicationInstructions :=
                s.applicationInstructions ++
                  [{ method := last.method
                     datacap_amount := 2 * last.datacap_amount
                     startTimestamp := some now
                     endTimestamp := none
                     allocatedTimestamp := none
                     status := .PENDING }]
              applicationStatus := .GOVERNANCE_REVIEW_PHASE },
           [.DatacapRefreshRequested])
  else .error phaseViolation

/-- Modelled from the spec: `setAllocatorMultisig` (aggregate source not under
`src/`).  Precondition KYC_PHASE. -/
def setAllocatorMultisig (actorId multisigAddress : String) (threshold : Nat)
    (signers : List String) (s : DatacapAllocator) : OpResult :=
  if s.applicationStatus ∈ [ApplicationStatus.KYC_PHASE] then
    .ok ({ s with
            allocatorActorId := actorId
            allocatorMultisigAddress := some multisigAddress
            allocatorMultisigThreshold := some threshold
            allocatorMultisigSigners := signers },
         [.AllocatorMultisigUpdated])
  else .error phaseViolation

/-- Modelled from the spec: `setApplicationPullRequest` (aggregate source not
under `src/`).  Precondition KYC_PHASE for a new application, DC_ALLOCATED for
a refresh; records the PR reference; the staged event carries the resulting
status (KYC_PHASE for new, GOVERNANCE_REVIEW_PHASE for refresh), modelled as
the resulting aggregate status. -/
def setApplicationPullRequest (prNumber : Nat) (prUrl : String) (commentId : Nat)
    (isRefresh : Bool) (s : DatacapAllocator) : OpResult :=
  if s.applicationStatus ∈
      (if isRefresh then [ApplicationStatus.DC_ALLOCATED] else [ApplicationStatus.KYC_PHASE]) then
    .ok ({ s with
            applicationPullRequest := some { prNumber := prNumber, prUrl := prUrl, commentId := commentId }
            applicationStatus :=
              if isRefresh then .GOVERNANCE_REVIEW_PHASE else .KYC_PHASE },
         [.ApplicationPullRequestUpdated])
  else .error phaseViolation

end DatacapAllocator

/-- One audit entry of the ingest file: calendar timestamps (Zulu strings,
possibly absent), a datacap amount (possibly absent) and an outcome
(possibly absent). -/
structure AuditEntry where
  started : Option String
  ended : Option String
  dc_allocated : Option String
  datacap_amount : Option Nat
  outcome : Option ApplicationInstructionStatus
deriving DecidableEq, Repr

/-- The `application` sub-record of the ingest file consumed by `edit`. -/
structure PullRequestFileApplication where
  allocations : List String
  audit : List String
  tranche_schedule : String
  distribution : List String
  required_sps : String
  required_replicas : String
  tooling : List String
  max_DC_client : String
  github_handles : List String
  allocation_bookkeeping : String
  client_contract_address : String
deriving DecidableEq, Repr

/-- The ingest file (source-of-truth snapshot) consumed by `edit` (spec §6). -/
structure ApplicationPullRequestFile where
  application_number : Nat
  address : String
  name : String
  organization : String
  associated_org_addresses : String
  metapathway_type : Option String
  ma_address : Option String
  application : PullRequestFileApplication
  audits : List AuditEntry
  pathway_addresses_msig : Option String
  pathway_addresses_signers : List String
deriving DecidableEq, Repr

/-- Modelled from the spec: `zuluToEpoch` (from `@filecoin-plus/core`, not
under `src/`): calendar-string to epoch-millisecond conversion under a fixed
parse rule, which must not throw on absent inputs.  The parse rule is an
uninterpreted total conversion `z`; absence maps to `none`. -/
def zuluToEpoch (z : String → Int) : Option String → Option Int :=
  Option.map z

namespace DatacapAllocator

/-- Modelled from the spec: `edit` (aggregate source not under `src/`).  No
phase precondition; rewrites descriptive fields from the ingest snapshot.  In
meta-approval-adjacent states (meta-allocator and MDMA flags set, branch
condition pinned by the unit tests, which drive it by the flags), sets the
pathway from the supplied metapathway type (default "MDMA"), the supplied
meta-allocator address (default the MDMA contract address), seeds the tooling
marker, copies the allocation terms, and rebuilds the instruction ledger from
the audits list: one instruction per audit entry, method = metapathway type
(or empty), timestamps converted with `zuluToEpoch`, status = outcome (or
PENDING), amount = datacap amount (or 0).  Otherwise defaults the pathway to
"RKH" with the RKH target address and clears the tooling. -/
def edit (z : String → Int) (file : ApplicationPullRequestFile)
    (s : DatacapAllocator) : OpResult :=
  let base := { s with
    applicationNumber := file.application_number
    applicantAddress := file.address
    applicantName := file.name
    applicantOrgName := file.organization
    applicantOrgAddresses := file.associated_org_addresses }
  if s.isMetaAllocator && s.isMDMA then
    .ok ({ base with
            pathway := file.metapathway_type.getD "MDMA"
            ma_address := file.ma_address.getD mdma_address
            allocationTooling := ["smart_contract_allocator"]
            allocationStandardizedAllocations := file.application.allocations
            allocationAudit := file.application.audit.headD ""
            allocationDistributionRequired := file.application.distribution.headD ""
            allocationTrancheSchedule := file.application.tranche_schedule
            allocationRequiredReplicas := file.application.required_replicas
            allocationRequiredStorageProviders := file.application.required_sps
            allocationMaxDcClient := file.application.max_DC_client
            applicantGithubHandle := file.application.github_handles.headD ""
            onChainAddressForDataCapAllocation := file.application.client_contract_address
            allocationBookkeepingRepo := file.application.allocation_bookkeeping
            allocatorMultisigAddress := file.pathway_addresses_msig
            allocatorMultisigSigners := file.pathway_addresses_signers
            applicationInstructions :=
              file.audits.map (fun a =>
                { method := file.metapathway_type.getD ""
                  datacap_amount := a.datacap_amount.getD 0
                  startTimestamp := zuluToEpoch z a.started
                  endTimestamp := zuluToEpoch z a.ended
                  allocatedTimestamp := zuluToEpoch z a.dc_allocated
                  status := a.outcome.getD .PENDING }) },
         [.ApplicationEdited])
  else
    .ok ({ base with
            pathway := "RKH"
            ma_address := rkh_address
            allocationTooling := [] },
         [.ApplicationEdited])

/-- Modelled from the spec: `updateDatacapAllocation` (aggregate source not
under `src/`).  No phase precondition; best-effort attempt of
`completeRKHApproval`, swallowing a phase-mismatch failure silently. -/
def updateDatacapAllocation (now : Int) (_datacap : Nat) (s : DatacapAllocator) : OpResult :=
  match completeRKHApproval now s with
  | .ok r => .ok r
  | .error _ => .ok (s, [])

end DatacapAllocator

/-- The aggregate's business operations, one constructor per declared method
(spec §4.1), with the arguments each method takes. -/
inductive Operation where
  | approveKYC (kycData : String)
  | rejectKYC (kycData : String)
  | revokeKYC
  | approveGovernanceReview (data : DatacapAllocator.GovernanceReviewApprovedData)
      (path : DatacapAllocator.AllocationPath)
  | rejectGovernanceReview (data : DatacapAllocator.GovernanceReviewRejectedData)
  | updateRKHApprovals (blockNumber : Nat) (approvals : List String)
  | completeRKHApproval
  | completeMetaAllocatorApproval (blockNumber : Int) (txHash : String)
  | requestDatacapRefresh
  | setAllocatorMultisig (actorId multisigAddress : String) (threshold : Nat)
      (signers : List String)
  | setApplicationPullRequest (prNumber : Nat) (prUrl : String) (commentId : Nat)
      (isRefresh : Bool)
  | edit (file : ApplicationPullRequestFile)
  | updateDatacapAllocation (datacap : Nat)
deriving DecidableEq, Repr

/-- All members of the status enumeration. -/
def allStatuses : List ApplicationStatus :=
  [.KYC_PHASE, .GOVERNANCE_REVIEW_PHASE, .RKH_APPROVAL_PHASE, .META_APPROVAL_PHASE,
   .APPROVED, .REJECTED, .IN_REFRESH, .DC_ALLOCATED]

theorem mem_allStatuses (st : ApplicationStatus) : st ∈ allStatuses := by
  cases st <;> simp [allStatuses]

/-- The permitted-status set of each operation (spec §4.1 precondition
column).  `edit` and `updateDatacapAllocation` are permitted in any status. -/
def permitted : Operation → List ApplicationStatus
  | .approveKYC _ => [.KYC_PHASE]
  | .rejectKYC _ => [.KYC_PHASE]
  | .revokeKYC => [.GOVERNANCE_REVIEW_PHASE]
  | .approveGovernanceReview _ _ => [.GOVERNANCE_REVIEW_PHASE]
  | .rejectGovernanceReview _ => [.GOVERNANCE_REVIEW_PHASE]
  | .updateRKHApprovals _ _ => [.RKH_APPROVAL_PHASE]
  | .completeRKHApproval => [.RKH_APPROVAL_PHASE]
  | .completeMetaAllocatorApproval _ _ => [.META_APPROVAL_PHASE]
  | .requestDatacapRefresh => [.DC_ALLOCATED]
  | .setAllocatorMultisig _ _ _ _ => [.KYC_PHASE]
  | .setApplicationPullRequest _ _ _ isRefresh =>
      if isRefresh then [.DC_ALLOCATED] else [.KYC_PHASE]
  | .edit _ => allStatuses
  | .updateDatacapAllocation _ => allStatuses

/-- Dispatch an operation against the aggregate.  `z` is the calendar-to-epoch
conversion used by `edit`, `now` the current epoch-millisecond time. -/
def runOperation (z : String → Int) (now : Int) (op : Operation)
    (s : DatacapAllocator) : OpResult :=
  match op with
  | .approveKYC _ => s.approveKYC now
  | .rejectKYC _ => s.rejectKYC now
  | .revokeKYC => s.revokeKYC
  | .approveGovernanceReview data path => s.approveGovernanceReview now data path
  | .rejectGovernanceReview data => s.rejectGovernanceReview now data
  | .updateRKHApprovals blockNumber approvals => s.updateRKHApprovals now blockNumber approvals
  | .completeRKHApproval => s.completeRKHApproval now
  | .completeMetaAllocatorApproval blockNumber txHash =>
      s.completeMetaAllocatorApproval now blockNumber txHash
  | .requestDatacapRefresh => s.requestDatacapRefresh now
  | .setAllocatorMultisig actorId multisigAddress threshold signers =>
      s.setAllocatorMultisig actorId multisigAddress threshold signers
  | .setApplicationPullRequest prNumber prUrl commentId isRefresh =>
      s.setApplicationPullRequest prNumber prUrl commentId isRefresh
  | .edit file => s.edit z file
  | .updateDatacapAllocation datacap => s.updateDatacapAllocation now datacap

/-- The state resulting from an operation, if it succeeded. -/
def resultState : OpResult → Option DatacapAllocator
  | .ok (s, _) => some s
  | .error _ => none

/-- The events staged by an operation, if it succeeded. -/
def resultEvents : OpResult → Option (List EventName)
  | .ok (_, evs) => some evs
  | .error _ => none

/-! ### Reconciliation poller (source: the subscribe-meta-allocator-approvals
module appended to `application.test.ts` under `src/`) -/

/-- A decoded `AllowanceChanged` approval event (poller source). -/
structure Approval where
  blockNumber : Int
  txHash : String
  contractAddress : String
  allocatorAddress : String
  allowanceBefore : String
  allowanceAfter : String
deriving DecidableEq, Repr

/-- The lookback-window adjustment inside `fetchApprovals`:
`const from = fromBlock > head - 2000 ? fromBlock : head - 1990`. -/
def adjustFromBlock (fromBlock head : Int) : Int :=
  if fromBlock > head - 2000 then fromBlock else head - 1990

/-- The per-tick starting block before window adjustment:
`Math.max(applicationLastBlock, issueLastBlock) + 1`
(from `subscribeMetaAllocatorApprovals`). -/
def pollerFromBlock (applicationLastBlock issueLastBlock : Int) : Int :=
  max applicationLastBlock issueLastBlock + 1

/-- A pending-issue read-model record (fields used by the poller). -/
structure IssueDetails where
  githubIssueNumber : Nat
  actorId : String
deriving DecidableEq, Repr

/-- An application read-model record (fields used by the poller). -/
structure ApplicationDetails where
  id : String
  actorId : String
deriving DecidableEq, Repr

/-- The commands the poller dispatches on resolution. -/
inductive PollerCommand where
  | approveRefreshByMa (issue : IssueDetails) (approval : Approval)
  | updateMetaAllocatorApprovals (applicationId : String) (blockNumber : Int) (txHash : String)
deriving DecidableEq, Repr

/-- `handleMetaAllocatorIssueApproval` (poller source): resolve the approval
against a pending-issue record; throw if none is found. -/
def handleMetaAllocatorIssueApproval (findPendingBy : String → Option IssueDetails)
    (approval : Approval) (actorId : String) : Except String PollerCommand :=
  match findPendingBy actorId with
  | none => .error ("Issue not found for actorId " ++ actorId)
  | some issue => .ok (.approveRefreshByMa issue approval)

/-- `handleMetaAllocatorApplicationApproval` (poller source): resolve the
approval against an application record by actor id; throw if none is found. -/
def handleMetaAllocatorApplicationApproval (getByActorId : String → Option ApplicationDetails)
    (approval : Approval) (actorId : String) : Except String PollerCommand :=
  match getByActorId actorId with
  | none => .error ("Application details not found for actorId " ++ actorId)
  | some details => .ok (.updateMetaAllocatorApprovals details.id approval.blockNumber approval.txHash)

/-- Modelled from the spec: `executeWithFallback`
(`@src/patterns/execution/executeWithFallback`, not under `src/`): an ordered
pair of resolver strategies, first success wins; on primary failure the
fallback is attempted. -/
def executeWithFallback (primary fallback : Except String PollerCommand) :
    Except String PollerCommand :=
  match primary with
  | .ok c => .ok c
  | .error _ => fallback

/-- The native actor id used for resolution: an Ethereum-format (0x) address
is translated to the Filecoin addressing scheme first (poller source). -/
def resolveActorId (toFilecoinId : String → String) (a : Approval) : String :=
  if a.allocatorAddress.startsWith "0x" then toFilecoinId a.allocatorAddress
  else a.allocatorAddress

/-- The observable outcome of processing one approval in the poller loop. -/
inductive ApprovalOutcome where
  | skippedInvalidAddress
  | dispatched (c : PollerCommand)
  | failedLogged
deriving DecidableEq, Repr

/-- Per-approval processing of `subscribeMetaAllocatorApprovals`: allow-list
filter on the contract address, address translation, issue-first
application-second resolution, command dispatch via the bus (`send`); any
resolver or dispatch failure is logged and the loop continues. -/
def processApproval (validAddresses : List String) (toFilecoinId : String → String)
    (findPendingBy : String → Option IssueDetails)
    (getByActorId : String → Option ApplicationDetails)
    (send : PollerCommand → Except String Unit) (a : Approval) : ApprovalOutcome :=
  if a.contractAddress ∈ validAddresses then
    let actorId := resolveActorId toFilecoinId a
    match executeWithFallback
        (handleMetaAllocatorIssueApproval findPendingBy a actorId)
        (handleMetaAllocatorApplicationApproval getByActorId a actorId) with
    | .ok c =>
      match send c with
      | .ok _ => .dispatched c
      | .error _ => .failedLogged
    | .error _ => .failedLogged
  else .skippedInvalidAddress

/-- One tick's batch: every approval is processed independently. -/
def processApprovals (validAddresses : List String) (toFilecoinId : String → String)
    (findPendingBy : String → Option IssueDetails)
    (getByActorId : String → Option ApplicationDetails)
    (send : PollerCommand → Except String Unit) (approvals : List Approval) :
    List ApprovalOutcome :=
  approvals.map (processApproval validAddresses toFilecoinId findPendingBy getByActorId send)

/-! ### SubmitGovernanceReviewResultCommand handler (source: `src/unnamed/part_000`)
and the repository save contract -/

/-- The governance-review phase result carried by the command (approved or
rejected, with the respective payload). -/
inductive PhaseResult where
  | approved (data : DatacapAllocator.GovernanceReviewApprovedData)
  | rejected (data : DatacapAllocator.GovernanceReviewRejectedData)
deriving DecidableEq, Repr

/-- `SubmitGovernanceReviewResultCommand` (from `src/unnamed/part_000`). -/
structure SubmitGovernanceReviewResultCommand where
  allocatorId : String
  result : PhaseResult
deriving DecidableEq, Repr

/-- The persistence request the handler issues: the mutated aggregate and the
expected version passed to `repository.save`. -/
structure SaveCall where
  aggregate : DatacapAllocator
  expectedVersion : Int
deriving DecidableEq, Repr

/-- `SubmitGovernanceReviewResultCommandHandler.handle`
(`src/unnamed/part_000`, lines 39-60): load the aggregate, apply the approval
or rejection, then `save(allocator, -1)`. -/
def handleSubmitGovernanceReviewResult (now : Int)
    (getById : String → Option DatacapAllocator)
    (resolve : String → DatacapAllocator.AllocationPath)
    (cmd : SubmitGovernanceReviewResultCommand) : Except String SaveCall :=
  match getById cmd.allocatorId with
  | none => .error ("Allocator with id " ++ cmd.allocatorId ++ " not found")
  | some allocator =>
    match cmd.result with
    | .approved data =>
      match allocator.approveGovernanceReview now data (resolve data.allocatorType) with
      | .ok (s, _) => .ok { aggregate := s, expectedVersion := -1 }
      | .error e => .error e.message
    | .rejected data =>
      match allocator.rejectGovernanceReview now data with
      | .ok (s, _) => .ok { aggregate := s, expectedVersion := -1 }
      | .error e => .error e.message

/-- Outcome of the repository's optimistic-concurrency version check. -/
inductive SaveOutcome where
  | ok
  | concurrencyConflict
deriving DecidableEq, Repr

/-- Modelled from the spec: the repository `save(aggregate, expectedVersion)`
version check (§5, §6; implementation not under `src/`): the call fails with
a concurrency error iff `expectedVersion` is non-sentinel (not −1) and
differs from the stored version. -/
def saveVersionCheck (storedVersion expectedVersion : Int) : SaveOutcome :=
  if expectedVersion = -1 then .ok
  else if expectedVersion = storedVersion then .ok
  else .concurrencyConflict

/-! ### Concrete fixtures used by the witnesses -/

/-- The creation-parameter fixture of the unit tests. -/
def fixtureParams : CreateParams :=
  { applicationId := "123"
    applicationNumber := 123
    applicantName := "John Doe"
    applicantAddress := "123"
    applicantOrgName := "Org"
    applicantOrgAddresses := "123"
    allocationTrancheSchedule := "123"
    allocationAudit := "123"
    allocationDistributionRequired := "123"
    allocationRequiredStorageProviders := "123"
    bookkeepingRepo := "123"
    allocationRequiredReplicas := "123"
    datacapAllocationLimits := "123"
    applicantGithubHandle := "123"
    onChainAddressForDataCapAllocation := "123" }

/-- A freshly created aggregate (creation time 0). -/
def fixtureApp : DatacapAllocator := DatacapAllocator.create 0 fixtureParams

/-- A granted RKH instruction used as the active tranche in refresh tests. -/
def grantedInstr : ApplicationInstruction :=
  { method := "RKH"
    datacap_amount := 1000
    startTimestamp := some 0
    endTimestamp := none
    allocatedTimestamp := some 0
    status := .GRANTED }

/-- The fixture aggregate moved to DC_ALLOCATED with one granted tranche. -/
def dcApp : DatacapAllocator :=
  { fixtureApp with
    applicationStatus := .DC_ALLOCATED
    applicationInstructions := [grantedInstr]
    stDCAllocated := some 0 }

/-! ### The claims -/

/-- Claim C1: for every aggregate operation and every status outside that
operation's permitted set, invoking the operation raises the fixed
phase-violation error (HTTP 400-class, code 5308, message Invalid operation
for the current phase) and leaves the aggregate unchanged: the result is the
bare error, carrying no mutated state and no staged event. -/
theorem invalid_phase_raises_fixed_error (z : String → Int) (now : Int)
    (op : Operation) (s : DatacapAllocator)
    (h : s.applicationStatus ∉ permitted op) :
    runOperation z now op s = .error phaseViolation := by
  cases op <;>
    simp only [runOperation, permitted, DatacapAllocator.approveKYC,
      DatacapAllocator.rejectKYC, DatacapAllocator.revokeKYC,
      DatacapAllocator.approveGovernanceReview, DatacapAllocator.rejectGovernanceReview,
      DatacapAllocator.updateRKHApprovals, DatacapAllocator.completeRKHApproval,
      DatacapAllocator.completeMetaAllocatorApproval, DatacapAllocator.requestDatacapRefresh,
      DatacapAllocator.setAllocatorMultisig, DatacapAllocator.setApplicationPullRequest,
      DatacapAllocator.edit, DatacapAllocator.updateDatacapAllocation] at h ⊢ <;>
    first
      | exact absurd (mem_allStatuses s.applicationStatus) h
      | rw [if_neg h]

/-- Witness for C1: a freshly created aggregate is in KYC_PHASE, outside the
permitted set of `completeRKHApproval`, and invoking it yields exactly the
fixed phase-violation error. -/
theorem invalid_phase_raises_fixed_error_witness :
    fixtureApp.applicationStatus ∉ permitted .completeRKHApproval ∧
      runOperation (fun _ => 0) 0 .completeRKHApproval fixtureApp = .error phaseViolation :=
  ⟨by decide, invalid_phase_raises_fixed_error (fun _ => 0) 0 .completeRKHApproval fixtureApp
    (by decide)⟩

/-- Claim C8: on each poller tick the approval fetch starts at the maximum
last-seen block across the application and issue record types plus one, and
this value is clamped to the 2000-block lookback window enforced by the
chain: whenever the gap between the head block and the last-seen watermark
exceeds the window, the fetch instead starts from head minus 1990 (window
minus headroom), silently accepting the loss of the oldest entries. -/
theorem poller_fromBlock_clamped_to_lookback_window
    (applicationLastBlock issueLastBlock head : Int) :
    adjustFromBlock (pollerFromBlock applicationLastBlock issueLastBlock) head =
      if 2000 < head - max applicationLastBlock issueLastBlock then head - 1990
      else max applicationLastBlock issueLastBlock + 1 := by
  simp only [adjustFromBlock, pollerFromBlock]
  generalize max applicationLastBlock issueLastBlock = m
  split <;> split <;> omega

/-- Claim C10: whenever the governance-review result handler reaches its
persistence step, the save call carries the sentinel expected version −1, and
under the repository optimistic-concurrency contract a save with the sentinel
never fails with a concurrency conflict, whatever the stored version is. -/
theorem submitGovernanceReviewResult_saves_with_sentinel
    (now : Int) (getById : String → Option DatacapAllocator)
    (resolve : String → DatacapAllocator.AllocationPath)
    (cmd : SubmitGovernanceReviewResultCommand) (sc : SaveCall)
    (h : handleSubmitGovernanceReviewResult now getById resolve cmd = .ok sc) :
    sc.expectedVersion = -1 ∧
      ∀ storedVersion : Int, saveVersionCheck storedVersion sc.expectedVersion = .ok := by
  have hv : sc.expectedVersion = -1 := by
    unfold handleSubmitGovernanceReviewResult at h
    split at h
    · cases h
    · split at h
      · split at h
        · have h1 := Except.ok.inj h
          rw [← h1]
        · cases h
      · split at h
        · have h1 := Except.ok.inj h
          rw [← h1]
        · cases h
  refine ⟨hv, fun storedVersion => ?_⟩
  rw [hv]
  simp [saveVersionCheck]

/-- The aggregate fixture sitting in GOVERNANCE_REVIEW_PHASE. -/
def govApp : DatacapAllocator :=
  { fixtureApp with applicationStatus := .GOVERNANCE_REVIEW_PHASE }

/-- The save call produced by rejecting `govApp` at time 0. -/
def govAppRejectedSave : SaveCall :=
  { aggregate :=
      { govApp with
        applicationInstructions :=
          updateLast (fun i => { i with status := .DENIED }) govApp.applicationInstructions
        allocatorActorId := rejectedActorId
        stDeclined := some 0
        applicationStatus := .REJECTED }
    expectedVersion := -1 }

/-- Witness for C10: handling a concrete rejection command reaches the save
step, and the save call carries the sentinel −1, which passes the version
check for (for instance) stored version 7. -/
theorem submitGovernanceReviewResult_saves_with_sentinel_witness :
    handleSubmitGovernanceReviewResult 0 (fun _ => some govApp)
        (fun _ => { pathway := "RKH", address := "f080", isMetaAllocator := false })
        { allocatorId := "123", result := .rejected { reason := "declined" } } =
      .ok govAppRejectedSave ∧
    (govAppRejectedSave.expectedVersion = -1 ∧
      ∀ storedVersion : Int, saveVersionCheck storedVersion govAppRejectedSave.expectedVersion = .ok) :=
  ⟨by rfl,
   submitGovernanceReviewResult_saves_with_sentinel 0 (fun _ => some govApp)
     (fun _ => { pathway := "RKH", address := "f080", isMetaAllocator := false })
     { allocatorId := "123", result := .rejected { reason := "declined" } }
     govAppRejectedSave (by rfl)⟩

/-- Claim C2: `requestDatacapRefresh` on a DC_ALLOCATED aggregate with a
non-empty instruction ledger appends exactly one new PENDING instruction
whose amount is exactly twice the active (last) instruction's amount and
whose method is the same, increases the ledger length by exactly one, stages
a single `DatacapRefreshRequested` event, and leaves the aggregate's status
at GOVERNANCE_REVIEW_PHASE. -/
theorem requestDatacapRefresh_appends_doubled_instruction (z : String → Int) (now : Int)
    (s : DatacapAllocator) (pre : List ApplicationInstruction) (lastI : ApplicationInstruction)
    (hStatus : s.applicationStatus = .DC_ALLOCATED)
    (hLedger : s.applicationInstructions = pre ++ [lastI]) :
    resultEvents (runOperation z now .requestDatacapRefresh s) =
      some [.DatacapRefreshRequested] ∧
    (resultState (runOperation z now .requestDatacapRefresh s)).map
        (fun t => t.applicationInstructions) =
      some (s.applicationInstructions ++
        [{ method := lastI.method
           datacap_amount := 2 * lastI.datacap_amount
           startTimestamp := some now
           endTimestamp := none
           allocatedTimestamp := none
           status := .PENDING }]) ∧
    (resultState (runOperation z now .requestDatacapRefresh s)).map
        (fun t => t.applicationInstructions.length) =
      some (s.applicationInstructions.length + 1) ∧
    (resultState (runOperation z now .requestDatacapRefresh s)).map
        (fun t => t.applicationStatus) = some .GOVERNANCE_REVIEW_PHASE := by
  have hmem : s.applicationStatus ∈ [ApplicationStatus.DC_ALLOCATED] := by
    simp [hStatus]
  refine ⟨?_, ?_, ?_, ?_⟩ <;>
    simp [runOperation, DatacapAllocator.requestDatacapRefresh, hStatus, hLedger,
      List.getLast?_concat, resultState, resultEvents, List.length_append]

/-- Witness for C2: refreshing the DC_ALLOCATED fixture with one granted
tranche of amount 1000 appends one PENDING instruction of amount 2000 with
the same method, stages one event, and ends in GOVERNANCE_REVIEW_PHASE. -/
theorem requestDatacapRefresh_appends_doubled_instruction_witness :
    (dcApp.applicationStatus = .DC_ALLOCATED ∧
      dcApp.applicationInstructions = [] ++ [grantedInstr]) ∧
    (resultEvents (runOperation (fun _ => 0) 5 .requestDatacapRefresh dcApp) =
      some [.DatacapRefreshRequested] ∧
    (resultState (runOperation (fun _ => 0) 5 .requestDatacapRefresh dcApp)).map
        (fun t => t.applicationInstructions) =
      some (dcApp.applicationInstructions ++
        [{ method := grantedInstr.method
           datacap_amount := 2 * grantedInstr.datacap_amount
           startTimestamp := some 5
           endTimestamp := none
           allocatedTimestamp := none
           status := .PENDING }]) ∧
    (resultState (runOperation (fun _ => 0) 5 .requestDatacapRefresh dcApp)).map
        (fun t => t.applicationInstructions.length) =
      some (dcApp.applicationInstructions.length + 1) ∧
    (resultState (runOperation (fun _ => 0) 5 .requestDatacapRefresh dcApp)).map
        (fun t => t.applicationStatus) = some .GOVERNANCE_REVIEW_PHASE) :=
  ⟨⟨rfl, rfl⟩,
   requestDatacapRefresh_appends_doubled_instruction (fun _ => 0) 5 dcApp [] grantedInstr
     rfl rfl⟩

/-- Claim C4: `updateRKHApprovals` is a no-op staging zero events whenever
the new signer list's length equals the current approvals list's length, and
in particular, calling it twice in RKH_APPROVAL_PHASE, the second call with a
list whose length equals the then-current approvals stages zero additional
events and leaves the state untouched. -/
theorem updateRKHApprovals_same_length_noop (z : String → Int) (now1 now2 : Int)
    (bn1 bn2 : Nat) (l1 l2 : List String) (s s1 : DatacapAllocator) (evs1 : List EventName)
    (hs : s.applicationStatus = .RKH_APPROVAL_PHASE) :
    (l1.length = s.rkhApprovals.length →
      runOperation z now1 (.updateRKHApprovals bn1 l1) s = .ok (s, [])) ∧
    (runOperation z now1 (.updateRKHApprovals bn1 l1) s = .ok (s1, evs1) →
      s1.applicationStatus = .RKH_APPROVAL_PHASE →
      l2.length = s1.rkhApprovals.length →
      runOperation z now2 (.updateRKHApprovals bn2 l2) s1 = .ok (s1, [])) := by
  have key : ∀ (st : DatacapAllocator) (now : Int) (bn : Nat) (l : List String),
      st.applicationStatus = .RKH_APPROVAL_PHASE → l.length = st.rkhApprovals.length →
      runOperation z now (.updateRKHApprovals bn l) st = .ok (st, []) := by
    intro st now bn l hst hlen
    have hmem : st.applicationStatus ∈ [ApplicationStatus.RKH_APPROVAL_PHASE] := by
      simp [hst]
    simp only [runOperation, DatacapAllocator.updateRKHApprovals, if_pos hmem, if_pos hlen]
  exact ⟨key s now1 bn1 l1 hs, fun _ h1 h2 => key s1 now2 bn2 l2 h1 h2⟩

/-- The fixture aggregate in RKH_APPROVAL_PHASE with one recorded approval. -/
def rkhApp1 : DatacapAllocator :=
  { fixtureApp with
    applicationStatus := .RKH_APPROVAL_PHASE
    rkhApprovals := ["signer1"] }

/-- Witness for C4: on an aggregate in RKH_APPROVAL_PHASE holding one
approval, a same-length update is a no-op with zero staged events, and so is
a second same-length call. -/
theorem updateRKHApprovals_same_length_noop_witness :
    rkhApp1.applicationStatus = .RKH_APPROVAL_PHASE ∧
    ((["signer2"].length = rkhApp1.rkhApprovals.length →
      runOperation (fun _ => 0) 1 (.updateRKHApprovals 10 ["signer2"]) rkhApp1 =
        .ok (rkhApp1, [])) ∧
    (runOperation (fun _ => 0) 1 (.updateRKHApprovals 10 ["signer2"]) rkhApp1 =
        .ok (rkhApp1, []) →
      rkhApp1.applicationStatus = .RKH_APPROVAL_PHASE →
      ["signer3"].length = rkhApp1.rkhApprovals.length →
      runOperation (fun _ => 0) 2 (.updateRKHApprovals 11 ["signer3"]) rkhApp1 =
        .ok (rkhApp1, []))) :=
  ⟨rfl,
   updateRKHApprovals_same_length_noop (fun _ => 0) 1 2 10 11 ["signer2"] ["signer3"]
     rkhApp1 rkhApp1 [] rfl⟩

/-- Claim C6: `rejectGovernanceReview` on a GOVERNANCE_REVIEW_PHASE aggregate
writes the fixed sentinel allocator actor id, marks the active (last)
instruction DENIED while preserving its method and amount, sets the Declined
status timestamp, and transitions the status to REJECTED. -/
theorem rejectGovernanceReview_denies_and_rejects (z : String → Int) (now : Int)
    (data : DatacapAllocator.GovernanceReviewRejectedData) (s : DatacapAllocator)
    (hs : s.applicationStatus = .GOVERNANCE_REVIEW_PHASE) :
    resultEvents (runOperation z now (.rejectGovernanceReview data) s) =
      some [.GovernanceReviewRejected] ∧
    (resultState (runOperation z now (.rejectGovernanceReview data) s)).map
        (fun t => t.allocatorActorId) = some rejectedActorId ∧
    (resultState (runOperation z now (.rejectGovernanceReview data) s)).map
        (fun t => t.applicationInstructions.getLast?.map
          (fun i => i.status)) =
      some (s.applicationInstructions.getLast?.map
        (fun _ => ApplicationInstructionStatus.DENIED)) ∧
    (resultState (runOperation z now (.rejectGovernanceReview data) s)).map
        (fun t => t.applicationInstructions.getLast?.map (fun i => i.method)) =
      some (s.applicationInstructions.getLast?.map (fun i => i.method)) ∧
    (resultState (runOperation z now (.rejectGovernanceReview data) s)).map
        (fun t => t.applicationInstructions.getLast?.map (fun i => i.datacap_amount)) =
      some (s.applicationInstructions.getLast?.map (fun i => i.datacap_amount)) ∧
    (resultState (runOperation z now (.rejectGovernanceReview data) s)).map
        (fun t => t.stDeclined) = some (some now) ∧
    (resultState (runOperation z now (.rejectGovernanceReview data) s)).map
        (fun t => t.applicationStatus) = some .REJECTED := by
  have hmem : s.applicationStatus ∈ [ApplicationStatus.GOVERNANCE_REVIEW_PHASE] := by
    simp [hs]
  refine ⟨?_, ?_, ?_, ?_, ?_, ?_, ?_⟩ <;>
    simp [runOperation, DatacapAllocator.rejectGovernanceReview, hs,
      resultState, resultEvents, getLast?_updateLast, Option.map_map] <;>
    cases s.applicationInstructions.getLast? <;>
    simp [Function.comp]

/-- Witness for C6: rejecting the GOVERNANCE_REVIEW_PHASE fixture at time 7
denies the single pending instruction (method and amount preserved), writes
the sentinel actor id, sets the Declined timestamp and moves to REJECTED. -/
theorem rejectGovernanceReview_denies_and_rejects_witness :
    govApp.applicationStatus = .GOVERNANCE_REVIEW_PHASE ∧
    (resultEvents (runOperation (fun _ => 0) 7
        (.rejectGovernanceReview { reason := "no" }) govApp) =
      some [.GovernanceReviewRejected] ∧
    (resultState (runOperation (fun _ => 0) 7
        (.rejectGovernanceReview { reason := "no" }) govApp)).map
        (fun t => t.allocatorActorId) = some rejectedActorId ∧
    (resultState (runOperation (fun _ => 0) 7
        (.rejectGovernanceReview { reason := "no" }) govApp)).map
        (fun t => t.applicationInstructions.getLast?.map (fun i => i.status)) =
      some (govApp.applicationInstructions.getLast?.map
        (fun _ => ApplicationInstructionStatus.DENIED)) ∧
    (resultState (runOperation (fun _ => 0) 7
        (.rejectGovernanceReview { reason := "no" }) govApp)).map
        (fun t => t.applicationInstructions.getLast?.map (fun i => i.method)) =
      some (govApp.applicationInstructions.getLast?.map (fun i => i.method)) ∧
    (resultState (runOperation (fun _ => 0) 7
        (.rejectGovernanceReview { reason := "no" }) govApp)).map
        (fun t => t.applicationInstructions.getLast?.map (fun i => i.datacap_amount)) =
      some (govApp.applicationInstructions.getLast?.map (fun i => i.datacap_amount)) ∧
    (resultState (runOperation (fun _ => 0) 7
        (.rejectGovernanceReview { reason := "no" }) govApp)).map
        (fun t => t.stDeclined) = some (some 7) ∧
    (resultState (runOperation (fun _ => 0) 7
        (.rejectGovernanceReview { reason := "no" }) govApp)).map
        (fun t => t.applicationStatus) = some .REJECTED) :=
  ⟨rfl,
   rejectGovernanceReview_denies_and_rejects (fun _ => 0) 7 { reason := "no" } govApp rfl⟩

/-- Claim C3: on an aggregate in RKH_APPROVAL_PHASE whose recorded approvals
are still below the threshold (true of every reachable RKH-phase state),
`updateRKHApprovals` with a signer list of length at least
`rkhApprovalThreshold` transitions the status to DC_ALLOCATED and marks the
active (last) instruction GRANTED, while a list whose length differs from the
current approvals but stays below the threshold leaves the status at
RKH_APPROVAL_PHASE. -/
theorem updateRKHApprovals_threshold_transition (z : String → Int) (now : Int) (bn : Nat)
    (approvals : List String) (s : DatacapAllocator)
    (hs : s.applicationStatus = .RKH_APPROVAL_PHASE)
    (hBelow : s.rkhApprovals.length < s.rkhApprovalThreshold) :
    (s.rkhApprovalThreshold ≤ approvals.length →
      (resultState (runOperation z now (.updateRKHApprovals bn approvals) s)).map
          (fun t => t.applicationStatus) = some .DC_ALLOCATED ∧
      (resultState (runOperation z now (.updateRKHApprovals bn approvals) s)).map
          (fun t => t.applicationInstructions.getLast?.map (fun i => i.status)) =
        some (s.applicationInstructions.getLast?.map
          (fun _ => ApplicationInstructionStatus.GRANTED))) ∧
    (approvals.length ≠ s.rkhApprovals.length →
      approvals.length < s.rkhApprovalThreshold →
      (resultState (runOperation z now (.updateRKHApprovals bn approvals) s)).map
          (fun t => t.applicationStatus) = some .RKH_APPROVAL_PHASE) := by
  constructor
  · intro hth
    have hne : ¬ (approvals.length = s.rkhApprovals.length) := by omega
    refine ⟨?_, ?_⟩ <;>
      simp [runOperation, DatacapAllocator.updateRKHApprovals, hs, hne, hth,
        DatacapAllocator.completeRKHApprovalEffect, resultState, getLast?_updateLast,
        Option.map_map] <;>
      cases s.applicationInstructions.getLast? <;>
      simp [Function.comp]
  · intro hne hlt
    have hnth : ¬ (s.rkhApprovalThreshold ≤ approvals.length) := by omega
    simp [runOperation, DatacapAllocator.updateRKHApprovals, hs, hne, hnth, resultState]

/-- Witness for C3: the RKH-phase fixture holding one approval (threshold 2)
reaches DC_ALLOCATED with its pending instruction granted when a two-signer
list arrives. -/
theorem updateRKHApprovals_threshold_transition_witness :
    (rkhApp1.applicationStatus = .RKH_APPROVAL_PHASE ∧
      rkhApp1.rkhApprovals.length < rkhApp1.rkhApprovalThreshold) ∧
    ((rkhApp1.rkhApprovalThreshold ≤ (["sigA", "sigB"] : List String).length →
      (resultState (runOperation (fun _ => 0) 3
          (.updateRKHApprovals 20 ["sigA", "sigB"]) rkhApp1)).map
          (fun t => t.applicationStatus) = some .DC_ALLOCATED ∧
      (resultState (runOperation (fun _ => 0) 3
          (.updateRKHApprovals 20 ["sigA", "sigB"]) rkhApp1)).map
          (fun t => t.applicationInstructions.getLast?.map (fun i => i.status)) =
        some (rkhApp1.applicationInstructions.getLast?.map
          (fun _ => ApplicationInstructionStatus.GRANTED))) ∧
    ((["sigA", "sigB"] : List String).length ≠ rkhApp1.rkhApprovals.length →
      (["sigA", "sigB"] : List String).length < rkhApp1.rkhApprovalThreshold →
      (resultState (runOperation (fun _ => 0) 3
          (.updateRKHApprovals 20 ["sigA", "sigB"]) rkhApp1)).map
          (fun t => t.applicationStatus) = some .RKH_APPROVAL_PHASE)) :=
  ⟨⟨rfl, by decide⟩,
   updateRKHApprovals_threshold_transition (fun _ => 0) 3 20 ["sigA", "sigB"] rkhApp1
     rfl (by decide)⟩

/-- Claim C5: `edit` on a meta-approval-phase aggregate with the MDMA and
meta-allocator flags set rebuilds the entire instruction ledger from the
audits list of the input file: the ledger length equals the number of audit
entries, each instruction carries the audit outcome as status (PENDING when
absent), the audit datacap amount (0 when absent), the supplied metapathway
type as method, and the calendar timestamps converted to epoch milliseconds;
the conversion is total, so absent source timestamps yield null instead of
throwing. -/
theorem edit_rebuilds_ledger_from_audits (z : String → Int) (now : Int)
    (file : ApplicationPullRequestFile) (s : DatacapAllocator) (m : String)
    (hs : s.applicationStatus = .META_APPROVAL_PHASE)
    (hMeta : s.isMetaAllocator = true) (hMDMA : s.isMDMA = true)
    (hPath : file.metapathway_type = some m) :
    (resultState (runOperation z now (.edit file) s)).map
        (fun t => t.applicationInstructions) =
      some (file.audits.map (fun a =>
        { method := m
          datacap_amount := a.datacap_amount.getD 0
          startTimestamp := zuluToEpoch z a.started
          endTimestamp := zuluToEpoch z a.ended
          allocatedTimestamp := zuluToEpoch z a.dc_allocated
          status := a.outcome.getD .PENDING })) ∧
    (resultState (runOperation z now (.edit file) s)).map
        (fun t => t.applicationInstructions.length) = some file.audits.length ∧
    resultEvents (runOperation z now (.edit file) s) = some [.ApplicationEdited] := by
  refine ⟨?_, ?_, ?_⟩ <;>
    simp [runOperation, DatacapAllocator.edit, hMeta, hMDMA, hPath, resultState,
      resultEvents]

/-- The fixture aggregate in META_APPROVAL_PHASE with both meta flags set. -/
def metaApp : DatacapAllocator :=
  { fixtureApp with
    applicationStatus := .META_APPROVAL_PHASE
    isMetaAllocator := true
    isMDMA := true }

/-- The pull-request-file fixture of the unit tests, extended with a second
audit entry whose fields are all absent to exercise the defaults. -/
def fixtureFile : ApplicationPullRequestFile :=
  { application_number := 456
    address := "456"
    name := "Jane Doe"
    organization := "Org"
    associated_org_addresses := "456"
    metapathway_type := some "MDMA"
    ma_address := some "456"
    application :=
      { allocations := ["456"]
        audit := ["456"]
        tranche_schedule := "Monthly"
        distribution := ["456"]
        required_sps := "10"
        required_replicas := "3"
        tooling := ["smart_contract_allocator"]
        max_DC_client := "1"
        github_handles := ["456"]
        allocation_bookkeeping := "https://github.com/test/repo"
        client_contract_address := "456" }
    audits :=
      [{ started := some "2021-01-01T00:00:00.000Z"
         ended := some "2021-01-01T00:00:00.000Z"
         dc_allocated := some "2021-01-01T00:00:00.000Z"
         datacap_amount := some 456
         outcome := some .GRANTED },
       { started := none
         ended := none
         dc_allocated := none
         datacap_amount := none
         outcome := none }]
    pathway_addresses_msig := some "f081"
    pathway_addresses_signers := ["f081"] }

/-- Witness for C5: editing the META_APPROVAL_PHASE fixture with a two-audit
file (one full entry, one with every optional field absent) rebuilds a
two-instruction ledger with the outcome, amount and timestamp defaults. -/
theorem edit_rebuilds_ledger_from_audits_witness :
    (metaApp.applicationStatus = .META_APPROVAL_PHASE ∧
      metaApp.isMetaAllocator = true ∧ metaApp.isMDMA = true ∧
      fixtureFile.metapathway_type = some "MDMA") ∧
    ((resultState (runOperation (fun _ => 1609459200000) 0 (.edit fixtureFile) metaApp)).map
        (fun t => t.applicationInstructions) =
      some (fixtureFile.audits.map (fun a =>
        { method := "MDMA"
          datacap_amount := a.datacap_amount.getD 0
          startTimestamp := zuluToEpoch (fun _ => 1609459200000) a.started
          endTimestamp := zuluToEpoch (fun _ => 1609459200000) a.ended
          allocatedTimestamp := zuluToEpoch (fun _ => 1609459200000) a.dc_allocated
          status := a.outcome.getD .PENDING })) ∧
    (resultState (runOperation (fun _ => 1609459200000) 0 (.edit fixtureFile) metaApp)).map
        (fun t => t.applicationInstructions.length) = some fixtureFile.audits.length ∧
    resultEvents (runOperation (fun _ => 1609459200000) 0 (.edit fixtureFile) metaApp) =
      some [.ApplicationEdited]) :=
  ⟨⟨rfl, rfl, rfl, rfl⟩,
   edit_rebuilds_ledger_from_audits (fun _ => 1609459200000) 0 fixtureFile metaApp
     "MDMA" rfl rfl rfl rfl⟩

/-- Claim C7: every status-checkpoint timestamp, once set to a non-null
epoch value, is never reset to null by any successful aggregate operation,
with the single exception of KYC Submitted, which only `revokeKYC` clears;
in particular `requestDatacapRefresh` leaves an already-set DC-Allocated
timestamp exactly as it was. -/
theorem status_timestamps_never_reset (z : String → Int) (now : Int) (op : Operation)
    (s s' : DatacapAllocator) (evs : List EventName)
    (h : runOperation z now op s = .ok (s', evs)) :
    (s.stApplicationSubmitted ≠ none → s'.stApplicationSubmitted ≠ none) ∧
    (s.stKYCFailed ≠ none → s'.stKYCFailed ≠ none) ∧
    (s.stApproved ≠ none → s'.stApproved ≠ none) ∧
    (s.stDeclined ≠ none → s'.stDeclined ≠ none) ∧
    (s.stDCAllocated ≠ none → s'.stDCAllocated ≠ none) ∧
    (s.stKYCSubmitted ≠ none → s'.stKYCSubmitted ≠ none ∨ op = .revokeKYC) ∧
    (op = .requestDatacapRefresh → s'.stDCAllocated = s.stDCAllocated) := by
  cases op with
  | approveKYC d =>
    simp only [runOperation, DatacapAllocator.approveKYC] at h
    split at h
    · injection h with h1
      injection h1 with hA hB
      subst hA
      exact ⟨id, id, id, id, id,
        fun _ => Or.inl (fun hc => Option.noConfusion hc), fun _ => rfl⟩
    · exact Except.noConfusion h
  | rejectKYC d =>
    simp only [runOperation, DatacapAllocator.rejectKYC] at h
    split at h
    · injection h with h1
      injection h1 with hA hB
      subst hA
      exact ⟨id, fun _ hc => Option.noConfusion hc, id, id, id,
        fun hx => Or.inl hx, fun _ => rfl⟩
    · exact Except.noConfusion h
  | revokeKYC =>
    simp only [runOperation, DatacapAllocator.revokeKYC] at h
    split at h
    · injection h with h1
      injection h1 with hA hB
      subst hA
      exact ⟨id, id, id, id, id, fun _ => Or.inr rfl, fun _ => rfl⟩
    · exact Except.noConfusion h
  | approveGovernanceReview data path =>
    simp only [runOperation, DatacapAllocator.approveGovernanceReview] at h
    split at h
    · split at h
      · injection h with h1
        injection h1 with hA hB
        subst hA
        exact ⟨id, id, fun _ hc => Option.noConfusion hc, id,
          fun _ hc => Option.noConfusion hc, fun hx => Or.inl hx,
          fun hop => Operation.noConfusion hop⟩
      · injection h with h1
        injection h1 with hA hB
        subst hA
        exact ⟨id, id, fun _ hc => Option.noConfusion hc, id, id,
          fun hx => Or.inl hx, fun _ => rfl⟩
    · exact Except.noConfusion h
  | rejectGovernanceReview data =>
    simp only [runOperation, DatacapAllocator.rejectGovernanceReview] at h
    split at h
    · injection h with h1
      injection h1 with hA hB
      subst hA
      exact ⟨id, id, id, fun _ hc => Option.noConfusion hc, id,
        fun hx => Or.inl hx, fun _ => rfl⟩
    · exact Except.noConfusion h
  | updateRKHApprovals bn approvals =>
    simp only [runOperation, DatacapAllocator.updateRKHApprovals,
      DatacapAllocator.completeRKHApprovalEffect] at h
    split at h
    · split at h
      · injection h with h1
        injection h1 with hA hB
        subst hA
        exact ⟨id, id, id, id, id, fun hx => Or.inl hx, fun _ => rfl⟩
      · split at h
        · injection h with h1
          injection h1 with hA hB
          subst hA
          exact ⟨id, id, id, id, fun _ hc => Option.noConfusion hc,
            fun hx => Or.inl hx, fun hop => Operation.noConfusion hop⟩
        · injection h with h1
          injection h1 with hA hB
          subst hA
          exact ⟨id, id, id, id, id, fun hx => Or.inl hx, fun _ => rfl⟩
    · exact Except.noConfusion h
  | completeRKHApproval =>
    simp only [runOperation, DatacapAllocator.completeRKHApproval,
      DatacapAllocator.completeRKHApprovalEffect] at h
    split at h
    · injection h with h1
      injection h1 with hA hB
      subst hA
      exact ⟨id, id, id, id, fun _ hc => Option.noConfusion hc,
        fun hx => Or.inl hx, fun hop => Operation.noConfusion hop⟩
    · exact Except.noConfusion h
  | completeMetaAllocatorApproval bn tx =>
    simp only [runOperation, DatacapAllocator.completeMetaAllocatorApproval] at h
    split at h
    · injection h with h1
      injection h1 with hA hB
      subst hA
      exact ⟨id, id, id, id, fun _ hc => Option.noConfusion hc,
        fun hx => Or.inl hx, fun hop => Operation.noConfusion hop⟩
    · exact Except.noConfusion h
  | requestDatacapRefresh =>
    simp only [runOperation, DatacapAllocator.requestDatacapRefresh] at h
    split at h
    · split at h
      · exact Except.noConfusion h
      · injection h with h1
        injection h1 with hA hB
        subst hA
        exact ⟨id, id, id, id, id, fun hx => Or.inl hx, fun _ => rfl⟩
    · exact Except.noConfusion h
  | setAllocatorMultisig actorId multisigAddress threshold signers =>
    simp only [runOperation, DatacapAllocator.setAllocatorMultisig] at h
    split at h
    · injection h with h1
      injection h1 with hA hB
      subst hA
      exact ⟨id, id, id, id, id, fun hx => Or.inl hx, fun _ => rfl⟩
    · exact Except.noConfusion h
  | setApplicationPullRequest prNumber prUrl commentId isRefresh =>
    simp only [runOperation, DatacapAllocator.setApplicationPullRequest] at h
    split at h <;> split at h <;>
      first
        | exact Except.noConfusion h
        | (injection h with h1
           injection h1 with hA hB
           subst hA
           exact ⟨id, id, id, id, id, fun hx => Or.inl hx, fun _ => rfl⟩)
  | edit file =>
    simp only [runOperation, DatacapAllocator.edit] at h
    split at h
    · injection h with h1
      injection h1 with hA hB
      subst hA
      exact ⟨id, id, id, id, id, fun hx => Or.inl hx, fun _ => rfl⟩
    · injection h with h1
      injection h1 with hA hB
      subst hA
      exact ⟨id, id, id, id, id, fun hx => Or.inl hx, fun _ => rfl⟩
  | updateDatacapAllocation datacap =>
    simp only [runOperation, DatacapAllocator.updateDatacapAllocation] at h
    split at h
    · rename_i r heq
      rw [DatacapAllocator.completeRKHApproval] at heq
      split at heq
      · injection heq with h1
        subst h1
        injection h with h2
        injection h2 with hA hB
        subst hA
        exact ⟨id, id, id, id, fun _ hc => Option.noConfusion hc,
          fun hx => Or.inl hx, fun hop => Operation.noConfusion hop⟩
      · exact Except.noConfusion heq
    · injection h with h1
      injection h1 with hA hB
      subst hA
      exact ⟨id, id, id, id, id, fun hx => Or.inl hx, fun _ => rfl⟩

/-- The fixture with the Approved and KYC-Submitted checkpoints already set. -/
def stampedApp : DatacapAllocator :=
  { fixtureApp with stApproved := some 3, stKYCSubmitted := some 4 }

/-- The state after rejecting KYC on `stampedApp` at time 9. -/
def stampedAppAfter : DatacapAllocator :=
  { stampedApp with stKYCFailed := some 9 }

/-- Witness for C7: rejecting KYC on an aggregate whose Approved and
KYC-Submitted checkpoints are set succeeds and every set checkpoint stays
non-null. -/
theorem status_timestamps_never_reset_witness :
    runOperation (fun _ => 0) 9 (.rejectKYC "k") stampedApp =
      .ok (stampedAppAfter, [.KYCRejected]) ∧
    ((stampedApp.stApplicationSubmitted ≠ none → stampedAppAfter.stApplicationSubmitted ≠ none) ∧
    (stampedApp.stKYCFailed ≠ none → stampedAppAfter.stKYCFailed ≠ none) ∧
    (stampedApp.stApproved ≠ none → stampedAppAfter.stApproved ≠ none) ∧
    (stampedApp.stDeclined ≠ none → stampedAppAfter.stDeclined ≠ none) ∧
    (stampedApp.stDCAllocated ≠ none → stampedAppAfter.stDCAllocated ≠ none) ∧
    (stampedApp.stKYCSubmitted ≠ none →
      stampedAppAfter.stKYCSubmitted ≠ none ∨ (Operation.rejectKYC "k") = .revokeKYC) ∧
    ((Operation.rejectKYC "k") = .requestDatacapRefresh →
      stampedAppAfter.stDCAllocated = stampedApp.stDCAllocated)) :=
  ⟨rfl,
   status_timestamps_never_reset (fun _ => 0) 9 (.rejectKYC "k") stampedApp
     stampedAppAfter [.KYCRejected] rfl⟩

/-- Claim C9: for every approval passing the contract-address allow-list
filter, the poller attempts resolution against a pending-issue record first
and an application record second, dispatches the command produced by the
first successful resolver, and degrades a resolver or dispatch failure to a
logged outcome for that approval only; the batch maps each approval to its
own outcome independently, so one failing approval never aborts the rest. -/
theorem poller_resolution_order_and_isolation
    (validAddresses : List String) (toFilecoinId : String → String)
    (findPendingBy : String → Option IssueDetails)
    (getByActorId : String → Option ApplicationDetails)
    (send : PollerCommand → Except String Unit) (a : Approval)
    (hValid : a.contractAddress ∈ validAddresses) :
    (∀ issue, findPendingBy (resolveActorId toFilecoinId a) = some issue →
      send (.approveRefreshByMa issue a) = .ok () →
      processApproval validAddresses toFilecoinId findPendingBy getByActorId send a =
        .dispatched (.approveRefreshByMa issue a)) ∧
    (∀ details, findPendingBy (resolveActorId toFilecoinId a) = none →
      getByActorId (resolveActorId toFilecoinId a) = some details →
      send (.updateMetaAllocatorApprovals details.id a.blockNumber a.txHash) = .ok () →
      processApproval validAddresses toFilecoinId findPendingBy getByActorId send a =
        .dispatched (.updateMetaAllocatorApprovals details.id a.blockNumber a.txHash)) ∧
    (findPendingBy (resolveActorId toFilecoinId a) = none →
      getByActorId (resolveActorId toFilecoinId a) = none →
      processApproval validAddresses toFilecoinId findPendingBy getByActorId send a =
        .failedLogged) ∧
    (∀ approvals : List Approval, ∀ i : Nat,
      (processApprovals validAddresses toFilecoinId findPendingBy getByActorId send
          approvals)[i]? =
        (approvals[i]?).map
          (processApproval validAddresses toFilecoinId findPendingBy getByActorId send)) := by
  refine ⟨?_, ?_, ?_, ?_⟩
  · intro issue hIss hSend
    simp [processApproval, hValid, executeWithFallback,
      handleMetaAllocatorIssueApproval, hIss, hSend]
  · intro details hIss hApp hSend
    simp [processApproval, hValid, executeWithFallback,
      handleMetaAllocatorIssueApproval, handleMetaAllocatorApplicationApproval,
      hIss, hApp, hSend]
  · intro hIss hApp
    simp [processApproval, hValid, executeWithFallback,
      handleMetaAllocatorIssueApproval, handleMetaAllocatorApplicationApproval,
      hIss, hApp]
  · intro approvals i
    simp [processApprovals]

/-- A concrete on-chain approval from an allow-listed contract. -/
def sampleApproval : Approval :=
  { blockNumber := 12
    txHash := "0xdead"
    contractAddress := "0xC0ffee"
    allocatorAddress := "0xabc"
    allowanceBefore := "0"
    allowanceAfter := "100" }

/-- Witness for C9: with a pending issue available for the translated actor
id and a dispatch that succeeds, the allow-listed sample approval yields
exactly the issue-based refresh command. -/
theorem poller_resolution_order_and_isolation_witness :
    sampleApproval.contractAddress ∈ ["0xC0ffee"] ∧
    ((∀ issue,
      (fun _ => some { githubIssueNumber := 5, actorId := "f0999" } :
          String → Option IssueDetails) (resolveActorId (fun _ => "f0999") sampleApproval) =
        some issue →
      (fun _ => Except.ok () : PollerCommand → Except String Unit)
          (.approveRefreshByMa issue sampleApproval) = .ok () →
      processApproval ["0xC0ffee"] (fun _ => "f0999")
          (fun _ => some { githubIssueNumber := 5, actorId := "f0999" })
          (fun _ => none) (fun _ => Except.ok ()) sampleApproval =
        .dispatched (.approveRefreshByMa issue sampleApproval)) ∧
    (∀ details,
      (fun _ => some { githubIssueNumber := 5, actorId := "f0999" } :
          String → Option IssueDetails) (resolveActorId (fun _ => "f0999") sampleApproval) =
        none →
      (fun _ => none : String → Option ApplicationDetails)
          (resolveActorId (fun _ => "f0999") sampleApproval) = some details →
      (fun _ => Except.ok () : PollerCommand → Except String Unit)
          (.updateMetaAllocatorApprovals details.id sampleApproval.blockNumber
            sampleApproval.txHash) = .ok () →
      processApproval ["0xC0ffee"] (fun _ => "f0999")
          (fun _ => some { githubIssueNumber := 5, actorId := "f0999" })
          (fun _ => none) (fun _ => Except.ok ()) sampleApproval =
        .dispatched (.updateMetaAllocatorApprovals details.id sampleApproval.blockNumber
          sampleApproval.txHash)) ∧
    ((fun _ => some { githubIssueNumber := 5, actorId := "f0999" } :
          String → Option IssueDetails) (resolveActorId (fun _ => "f0999") sampleApproval) =
        none →
      (fun _ => none : String → Option ApplicationDetails)
          (resolveActorId (fun _ => "f0999") sampleApproval) = none →
      processApproval ["0xC0ffee"] (fun _ => "f0999")
          (fun _ => some { githubIssueNumber := 5, actorId := "f0999" })
          (fun _ => none) (fun _ => Except.ok ()) sampleApproval = .failedLogged) ∧
    (∀ approvals : List Approval, ∀ i : Nat,
      (processApprovals ["0xC0ffee"] (fun _ => "f0999")
          (fun _ => some { githubIssueNumber := 5, actorId := "f0999" })
          (fun _ => none) (fun _ => Except.ok ()) approvals)[i]? =
        (approvals[i]?).map
          (processApproval ["0xC0ffee"] (fun _ => "f0999")
            (fun _ => some { githubIssueNumber := 5, actorId := "f0999" })
            (fun _ => none) (fun _ => Except.ok ())))) :=
  ⟨by decide,
   poller_resolution_order_and_isolation ["0xC0ffee"] (fun _ => "f0999")
     (fun _ => some { githubIssueNumber := 5, actorId := "f0999" })
     (fun _ => none) (fun _ => Except.ok ()) sampleApproval (by decide)⟩

end AllocatorRkh
